import Mathlib

/-
Shallow embedding of the bank ledger and turn-dispatch system
(Python sources under src/core and src/server) for checking the
natural-language specification against the code.

Conventions of the embedding:
* Python floats holding money are modelled as exact rationals (ℚ).
* Python dicts are modelled as insertion-ordered association lists
  (`List (String × α)`); `dict.get` reads the first matching key and
  in-place mutation of a fetched value is modelled by rewriting the
  entry under its key.
* `sha256(...).hexdigest()` is modelled by an abstract parameter
  `hash : String → String`; no property of it is assumed unless a
  theorem states one.
* Wall-clock values (`datetime.now()`) are passed as explicit `Nat`
  parameters where the code consults them.
* A Python function that can raise is embedded with an `Except`/`Bool`
  result; a `try/except` that swallows the exception is embedded by
  returning the state as it was at the moment the exception fired.
-/

namespace BankSpec

/-- src/core/transaction.py, class TransactionType: the four enum members.
(There is no `TRANSFER_RECEIVED` member; `Bank.deposit` nevertheless
references one, see `Bank.deposit` below.) -/
inductive TransactionType where
  | DEPOSIT
  | WITHDRAWAL
  | TRANSFER
  | PAYMENT
deriving DecidableEq, Repr

/-- src/core/transaction.py, class Transaction: the fields consulted by the
ledger code.  `transaction_id` (a fresh uuid) and `timestamp`
(`datetime.now()`) are generated from ambient nondeterminism and are never
consulted by the operations under study, so they are not carried. -/
structure Transaction where
  account_id : String
  amount : ℚ
  type : TransactionType
  card_number : Option String
  description : Option String
  source_reference : Option String
  is_cash : Bool
deriving DecidableEq, Repr

/-- src/core/account.py, class Account: the fields touched by the claims.
`debit_cards` is never consulted by the operations under study. -/
structure Account where
  account_number : String
  customer_id : String
  balance : ℚ
  nip_hash : Option String
  nip_attempts : Nat
  is_locked : Bool
  transaction_history : List Transaction
deriving DecidableEq, Repr

/-- src/core/account.py lines 36-43, `Account.add_transaction`: appends the
transaction to the history and additionally moves the balance when the
transaction type is DEPOSIT or WITHDRAWAL. -/
def Account.add_transaction (a : Account) (t : Transaction) : Account :=
  let a1 := { a with transaction_history := a.transaction_history ++ [t] }
  match t.type with
  | TransactionType.DEPOSIT => { a1 with balance := a1.balance + t.amount }
  | TransactionType.WITHDRAWAL => { a1 with balance := a1.balance - t.amount }
  | _ => a1

/-- src/core/account.py lines 69-75, `Account.validate_nip`: compares the
hash of the offered NIP with the stored hash; returns False for a locked
account or an account with no stored hash.  It mutates nothing. -/
def Account.validate_nip (hash : String → String) (a : Account) (nip : String) : Bool :=
  if a.is_locked then false
  else
    match a.nip_hash with
    | none => false
    | some h => hash nip == h

/-- Python `dict.get(key)` on an insertion-ordered dict modelled as an
association list: the value of the first entry with the given key. -/
def dictGet {α : Type} (l : List (String × α)) (k : String) : Option α :=
  (l.find? (fun p => p.1 == k)).map (fun p => p.2)

/-- In-place mutation of the object stored under key `k` (Python holds a
reference into the dict, so mutating the fetched object rewrites the
entry): replace the value at `k`, keep all other entries. -/
def dictSet {α : Type} (l : List (String × α)) (k : String) (v : α) : List (String × α) :=
  l.map (fun p => if p.1 == k then (k, v) else p)

/-- Python truthiness of an optional string argument (`if nip and ...`,
`if not source_reference ...`): `None` and the empty string are falsy. -/
def strOptTruthy : Option String → Bool
  | none => false
  | some s => !(s == "")

/-- src/core/card.py lines 9-12, class CardType: members NORMAL, GOLD,
PLATINUM (their values are card-number prefixes, not consulted here).
There is no member named STANDARD; `Turn._determine_priority`
nevertheless references one, see `Turn.determine_priority` below. -/
inductive CardType where
  | NORMAL
  | GOLD
  | PLATINUM
deriving DecidableEq, Repr

/-- One row of the credit benefits table of src/core/credit_card.py
lines 4-8. -/
structure CreditBenefits where
  fee : ℚ
  credit_limit : ℚ
  interest_rate : ℚ
deriving DecidableEq, Repr

/-- src/core/credit_card.py lines 4-8, `CreditCard._BENEFITS`. -/
def creditBenefits : CardType → CreditBenefits
  | CardType.NORMAL => ⟨0.03, 10000, 0.05⟩
  | CardType.GOLD => ⟨0.02, 20000, 0.04⟩
  | CardType.PLATINUM => ⟨0.01, 50000, 0.03⟩

/-- src/core/credit_card.py, class CreditCard: fields assigned in
`CreditCard.__init__` plus the base-class fields of src/core/card.py that
the studied operations consult (`active`, `expiration_date`).  The card
number, ccv and benefits-by-category bookkeeping of the base class are
not consulted by any claim.  (The source's `super().__init__(card_type)`
call no longer matches `Card.__init__`'s arity after `category` was added
to the base class; the embedding records the fields the two constructor
bodies assign.) -/
structure CreditCard where
  card_type : CardType
  customer_id : String
  active : Bool
  expiration_date : Nat
  benefits : CreditBenefits
  credit_limit : ℚ
  outstanding_balance : ℚ
  available_credit : ℚ
deriving DecidableEq, Repr

set_option linter.unusedVariables false in
/-- `CreditCard.__init__` (src/core/credit_card.py lines 10-16): its
first statement is `super().__init__(card_type)`, but `Card.__init__`
(src/core/card.py line 39) declares `(self, card_type, category,
account_id=None)` — the required positional argument `category` is not
passed, so every CreditCard construction raises TypeError before any
field is assigned.  The assignments of lines 12-16 (benefits looked up
by type, credit_limit from the table, zero outstanding balance,
available credit equal to the limit) are never reached: no CreditCard
object is ever created by this program. -/
def CreditCard.construct (card_type : CardType) (customer_id : String) :
    Except String CreditCard :=
  Except.error
    "TypeError: Card.__init__ missing 1 required positional argument: category"

/-- src/core/card.py line 49, `Card.activate_card`. -/
def CreditCard.activate_card (c : CreditCard) : CreditCard :=
  { c with active := true }

/-- src/core/card.py lines 57-59, `Card.is_valid`: active and not expired
(`expiration_date > datetime.now()`, with `now` passed explicitly). -/
def CreditCard.is_valid (c : CreditCard) (now : Nat) : Bool :=
  c.active && decide (now < c.expiration_date)

/-- src/core/credit_card.py lines 18-25, `CreditCard.make_purchase`:
raises on an invalid card or when the amount exceeds the available
credit, else moves the amount from available credit to the outstanding
balance. -/
def CreditCard.make_purchase (c : CreditCard) (now : Nat) (amount : ℚ) :
    Except String CreditCard :=
  if !(c.is_valid now) then Except.error "Tarjeta no válida o bloqueada"
  else if c.available_credit < amount then Except.error "Límite de crédito insuficiente"
  else Except.ok { c with
    outstanding_balance := c.outstanding_balance + amount
    available_credit := c.available_credit - amount }

/-- src/core/credit_card.py lines 27-32, `CreditCard.make_payment`:
raises on a non-positive amount, else pays `min(amount,
outstanding_balance)`, restoring the available credit symmetrically. -/
def CreditCard.make_payment (c : CreditCard) (amount : ℚ) :
    Except String CreditCard :=
  if amount ≤ 0 then Except.error "El monto debe ser positivo"
  else
    let payment := min amount c.outstanding_balance
    Except.ok { c with
      outstanding_balance := c.outstanding_balance - payment
      available_credit := c.available_credit + payment }

/-- src/core/credit_card.py lines 34-35, `CreditCard.calculate_interest`. -/
def CreditCard.calculate_interest (c : CreditCard) : ℚ :=
  c.outstanding_balance * c.benefits.interest_rate

/-- src/core/credit_card.py lines 37-41, `CreditCard.apply_interest`. -/
def CreditCard.apply_interest (c : CreditCard) : CreditCard :=
  let interest := c.calculate_interest
  { c with
    outstanding_balance := c.outstanding_balance + interest
    available_credit := c.available_credit - interest }

/-- src/core/debit_card.py, class DebitCard: the fields relevant to the
claims (its daily-limit benefits are never consulted here). -/
structure DebitCard where
  card_type : CardType
  account_id : String
  active : Bool
deriving DecidableEq, Repr

/-- A value of the bank's card registry: `isinstance(card, CreditCard)`
dispatches on which variant is stored. -/
inductive Card where
  | debit (d : DebitCard)
  | credit (c : CreditCard)
deriving DecidableEq, Repr

/-- src/core/bank.py: the mutable ledger state the claims touch —
`accounts` and `card_registry` dicts and the global `transaction_history`
audit list.  The `customers` dict is not consulted by any claim. -/
structure Bank where
  accounts : List (String × Account)
  card_registry : List (String × Card)
  transaction_history : List Transaction
deriving DecidableEq, Repr

/-- src/core/bank.py lines 1520-1613, `Bank.deposit`.  Event-console and
process-tracker calls are observability-only and elided.  Control flow:
reject `amount <= 0`; reject a missing account; then `account.balance +=
amount`; then the transaction type is chosen — for a truthy
`source_reference` the code evaluates `TransactionType.TRANSFER_RECEIVED`,
a member that does not exist (src/core/transaction.py lines 5-9), so an
AttributeError fires, the outer `except Exception` returns False, and the
balance increment already made persists; for a falsy `source_reference` a
DEPOSIT transaction is built and `account.add_transaction` (which adds the
amount to the balance a second time) records it. -/
def Bank.deposit (b : Bank) (account_number : String) (amount : ℚ)
    (source_reference : Option String) : Bool × Bank :=
  if amount ≤ 0 then (false, b)
  else
    match dictGet b.accounts account_number with
    | none => (false, b)
    | some account =>
      let account1 := { account with balance := account.balance + amount }
      let b1 := { b with accounts := dictSet b.accounts account_number account1 }
      if strOptTruthy source_reference then
        (false, b1)
      else
        let transaction : Transaction :=
          { account_id := account_number
            amount := amount
            type := TransactionType.DEPOSIT
            card_number := none
            description := none
            source_reference := source_reference
            is_cash := false }
        let account2 := account1.add_transaction transaction
        (true, { b1 with
          accounts := dictSet b1.accounts account_number account2
          transaction_history := b1.transaction_history ++ [transaction] })

/-- src/core/bank.py lines 1615-1732, `Bank.withdraw`.  Control flow:
reject `amount <= 0`; reject a missing account; reject a locked account;
reject a failed NIP check (note: the code only logs `3 -
account.nip_attempts` remaining attempts — it never increments
`nip_attempts` and never sets `is_locked`); reject insufficient funds;
else `account.balance -= amount` followed by
`account.add_transaction` of a WITHDRAWAL transaction (which subtracts
the amount from the balance a second time). -/
def Bank.withdraw (hash : String → String) (b : Bank) (account_number : String)
    (amount : ℚ) (nip : String) : Bool × Bank :=
  if amount ≤ 0 then (false, b)
  else
    match dictGet b.accounts account_number with
    | none => (false, b)
    | some account =>
      if account.is_locked then (false, b)
      else if !(account.validate_nip hash nip) then (false, b)
      else if account.balance < amount then (false, b)
      else
        let account1 := { account with balance := account.balance - amount }
        let transaction : Transaction :=
          { account_id := account_number
            amount := amount
            type := TransactionType.WITHDRAWAL
            card_number := none
            description := some "Cash withdrawal"
            source_reference := none
            is_cash := false }
        let account2 := account1.add_transaction transaction
        (true, { b with
          accounts := dictSet b.accounts account_number account2
          transaction_history := b.transaction_history ++ [transaction] })

/-- src/core/bank.py lines 1395-1518, `Bank.transfer`.  Control flow under
the accounts lock: reject a self-transfer, missing account(s), a failed
NIP check (only when `nip` is truthy), or insufficient source funds; else
`source.balance -= amount`, `target.balance += amount`, record a TRANSFER
transaction on the source and a DEPOSIT transaction on the target
(`Account.add_transaction` adds the DEPOSIT amount to the target balance
a second time), and extend the global history with both. -/
def Bank.transfer (hash : String → String) (b : Bank) (source_id target_id : String)
    (amount : ℚ) (nip : Option String) : Bool × Bank :=
  if source_id == target_id then (false, b)
  else
    match dictGet b.accounts source_id, dictGet b.accounts target_id with
    | some source, some target =>
      if strOptTruthy nip && !(source.validate_nip hash (nip.getD "")) then (false, b)
      else if source.balance < amount then (false, b)
      else
        let source1 := { source with balance := source.balance - amount }
        let target1 := { target with balance := target.balance + amount }
        let source_transaction : Transaction :=
          { account_id := source_id
            amount := amount
            type := TransactionType.TRANSFER
            card_number := none
            description := some "Transfer to target"
            source_reference := some target_id
            is_cash := false }
        let target_transaction : Transaction :=
          { account_id := target_id
            amount := amount
            type := TransactionType.DEPOSIT
            card_number := none
            description := some "Transfer from source"
            source_reference := some source_id
            is_cash := false }
        let source2 := source1.add_transaction source_transaction
        let target2 := target1.add_transaction target_transaction
        (true, { b with
          accounts := dictSet (dictSet b.accounts source_id source2) target_id target2
          transaction_history :=
            b.transaction_history ++ [source_transaction, target_transaction] })
    | _, _ => (false, b)

/-- src/core/bank.py lines 846-1001, `Bank.pay_credit_card`.  Control
flow: reject a card that is missing or not a CreditCard; when not cash,
fetch the funding account (`accounts.get(payment_source)`), reject if
missing or under-funded, else debit it by the full `amount` and record a
PAYMENT transaction in the account's own history; finally
`card.make_payment(amount)` caps the applied payment at the outstanding
balance, a PAYMENT transaction is appended to the global history, and
True is returned (a ValueError from `make_payment` is caught and False
returned — any account debit already made persists). -/
def Bank.pay_credit_card (b : Bank) (card_number : String) (amount : ℚ)
    (payment_source : Option String) (is_cash : Bool) : Bool × Bank :=
  match dictGet b.card_registry card_number with
  | some (Card.credit card) =>
    if !is_cash then
      match payment_source.bind (fun src => (dictGet b.accounts src).map (fun a => (src, a))) with
      | none => (false, b)
      | some (src, account) =>
        if account.balance < amount then (false, b)
        else
          let account1 := { account with balance := account.balance - amount }
          let account_transaction : Transaction :=
            { account_id := src
              amount := amount
              type := TransactionType.PAYMENT
              card_number := some card_number
              description := none
              source_reference := none
              is_cash := false }
          let account2 := account1.add_transaction account_transaction
          let b1 := { b with accounts := dictSet b.accounts src account2 }
          match card.make_payment amount with
          | Except.error _ => (false, b1)
          | Except.ok card1 =>
            let payment_transaction : Transaction :=
              { account_id := src
                amount := amount
                type := TransactionType.PAYMENT
                card_number := some card_number
                description := none
                source_reference := none
                is_cash := false }
            (true, { b1 with
              card_registry := dictSet b1.card_registry card_number (Card.credit card1)
              transaction_history := b1.transaction_history ++ [payment_transaction] })
    else
      match card.make_payment amount with
      | Except.error _ => (false, b)
      | Except.ok card1 =>
        let payment_transaction : Transaction :=
          { account_id := card.customer_id
            amount := amount
            type := TransactionType.PAYMENT
            card_number := some card_number
            description := none
            source_reference := none
            is_cash := true }
        (true, { b with
          card_registry := dictSet b.card_registry card_number (Card.credit card1)
          transaction_history := b.transaction_history ++ [payment_transaction] })
  | _ => (false, b)

/-- The per-card body of the loop of `Bank.apply_monthly_interest`
(src/core/bank.py lines 1101-1114): a CreditCard with positive
outstanding balance has `interest = calculate_interest()` applied and a
synthetic PAYMENT transaction (amount `interest`, account field the
card's customer id) recorded; every other registry entry is untouched.
The result of the loop over the registry list is (updated registry,
cards_processed, total_interest, transactions appended). -/
def applyInterestLoop :
    List (String × Card) → List (String × Card) × Nat × ℚ × List Transaction
  | [] => ([], 0, 0, [])
  | (k, card) :: rest =>
    let (rest', n, tot, txns) := applyInterestLoop rest
    match card with
    | Card.credit c =>
      if 0 < c.outstanding_balance then
        let interest := c.calculate_interest
        let interest_transaction : Transaction :=
          { account_id := c.customer_id
            amount := interest
            type := TransactionType.PAYMENT
            card_number := none
            description := some "Interés mensual"
            source_reference := none
            is_cash := false }
        ((k, Card.credit c.apply_interest) :: rest', n + 1, tot + interest,
          interest_transaction :: txns)
      else ((k, card) :: rest', n, tot, txns)
    | _ => ((k, card) :: rest', n, tot, txns)

/-- src/core/bank.py lines 1069-1141, `Bank.apply_monthly_interest`:
runs the loop above over the card registry, reports `cards_processed` and
`total_interest` only to the event console, and falls off the end of the
function — the Python function has no `return` statement, so its value
is None (modelled as the `none` of an `Option (Nat × ℚ)` result slot). -/
def Bank.apply_monthly_interest (b : Bank) : Option (Nat × ℚ) × Bank :=
  let (reg, _cards_processed, _total_interest, txns) := applyInterestLoop b.card_registry
  (none, { b with
    card_registry := reg
    transaction_history := b.transaction_history ++ txns })

/-- src/core/turn.py, class Turn: the fields the queueing claims consult
(`priority`, `created_at` as an abstract clock value, and the generated
`turn_id`).  The operation list, customer and card references do not
enter the ordering. -/
structure Turn where
  priority : Nat
  created_at : Nat
  turn_id : String
deriving DecidableEq, Repr

/-- Python attribute access `CardType.NAME` on the enum class of
src/core/card.py lines 9-12: an AttributeError for any name that is not
one of the three members. -/
def cardTypeAttr : String → Except String CardType
  | "NORMAL" => Except.ok CardType.NORMAL
  | "GOLD" => Except.ok CardType.GOLD
  | "PLATINUM" => Except.ok CardType.PLATINUM
  | s => Except.error ("AttributeError: type object CardType has no attribute " ++ s)

/-- src/core/turn.py lines 104-118, `Turn._determine_priority`: no card
gives priority 3; otherwise the method builds the dict literal
`{CardType.PLATINUM: 1, CardType.GOLD: 1, CardType.STANDARD: 2, None: 3}`
— whose keys are evaluated left to right, so the `CardType.STANDARD`
access decides whether the construction survives — and then returns
`priority_map.get(card.type, 2)` for a CreditCard and 2 for any other
card. -/
def Turn.determine_priority (card : Option Card) : Except String Nat :=
  match card with
  | none => Except.ok 3
  | some c =>
    match cardTypeAttr "PLATINUM", cardTypeAttr "GOLD", cardTypeAttr "STANDARD" with
    | Except.ok kP, Except.ok kG, Except.ok kS =>
      let priority_map : List (Option CardType × Nat) :=
        [(some kP, 1), (some kG, 1), (some kS, 2), (none, 3)]
      match c with
      | Card.credit cc => Except.ok ((priority_map.lookup (some cc.card_type)).getD 2)
      | Card.debit _ => Except.ok 2
    | _, _, _ =>
      Except.error "AttributeError: type object CardType has no attribute STANDARD"

/-- src/core/turn.py lines 156-160, `Turn.__lt__`: priority first, then
creation time. -/
def Turn.lt (a other : Turn) : Bool :=
  if a.priority = other.priority then decide (a.created_at < other.created_at)
  else decide (a.priority < other.priority)

/-- An element of `TurnManager.priority_queue`: the tuple
`(turn.priority, turn.created_at, turn)` pushed by `add_turn`
(src/server/turn_manger.py line 14). -/
structure QEntry where
  priority : Nat
  created_at : Nat
  turn : Turn
deriving DecidableEq, Repr

/-- The tuple pushed for a turn by `TurnManager.add_turn`. -/
def mkEntry (t : Turn) : QEntry :=
  ⟨t.priority, t.created_at, t⟩

/-- Python `<` on the pushed tuples: lexicographic comparison at the
first differing component, reaching `Turn.__lt__` on the third slot only
when priority and creation time both coincide. -/
def QEntry.lt (x y : QEntry) : Bool :=
  if x.priority ≠ y.priority then decide (x.priority < y.priority)
  else if x.created_at ≠ y.created_at then decide (x.created_at < y.created_at)
  else Turn.lt x.turn y.turn

/-- `heapq.heappush` of the Python standard library, modelled by its
documented contract ("Push the value item onto the heap"): the heap list
is represented by its contents, so a push appends the item. -/
def heappush (heap : List QEntry) (item : QEntry) : List QEntry :=
  heap ++ [item]

/-- `heapq.heappop` of the Python standard library, modelled by its
documented contract ("Pop and return the smallest item from the heap"):
remove the first minimal element of the list with respect to the entry
order.  When the minimum is unique — which the claims guarantee through
their pairwise-distinct creation-timestamp hypothesis — every conforming
binary-heap implementation returns exactly this element. -/
def heappop : List QEntry → Option (QEntry × List QEntry)
  | [] => none
  | e :: rest =>
    match heappop rest with
    | none => some (e, [])
    | some (m, rest') => if QEntry.lt m e then some (m, e :: rest') else some (e, rest)

/-- Python `set.add` on a set modelled as a duplicate-free list. -/
def addToSet (s : List String) (x : String) : List String :=
  if s.contains x then s else s ++ [x]

/-- src/server/turn_manger.py, class TurnManager: the pending priority
queue and the ids of turns handed out for dispatch. -/
structure TurnManager where
  priority_queue : List QEntry
  active_turns : List String
deriving DecidableEq, Repr

/-- `TurnManager.__init__` (src/server/turn_manger.py lines 7-10). -/
def TurnManager.empty : TurnManager :=
  ⟨[], []⟩

/-- src/server/turn_manger.py lines 12-14, `TurnManager.add_turn`:
`heappush(self.priority_queue, (turn.priority, turn.created_at, turn))`. -/
def TurnManager.add_turn (m : TurnManager) (turn : Turn) : TurnManager :=
  { m with priority_queue := heappush m.priority_queue (mkEntry turn) }

/-- src/server/turn_manger.py lines 24-31, `TurnManager.get_next_turn`:
None on an empty queue, else pop the heap minimum, mark the turn id
active, and return the turn. -/
def TurnManager.get_next_turn (m : TurnManager) : Option Turn × TurnManager :=
  match heappop m.priority_queue with
  | none => (none, m)
  | some (e, rest) =>
    (some e.turn, { m with
      priority_queue := rest
      active_turns := addToSet m.active_turns e.turn.turn_id })

/-- `k` successive `TurnManager.get_next_turn` calls, collecting the
turns returned (an empty-queue answer ends the collection). -/
def TurnManager.nextTurns (m : TurnManager) : Nat → List Turn
  | 0 => []
  | Nat.succ k =>
    match m.get_next_turn with
    | (none, _) => []
    | (some t, m') => t :: m'.nextTurns k

/-- All turns of a list submitted to a fresh TurnManager in order. -/
def addAll (ts : List Turn) : TurnManager :=
  ts.foldl TurnManager.add_turn TurnManager.empty

/-- The ordering the specification asks of the dequeue sequence:
ascending priority, FIFO (ascending creation time) within equal
priority. -/
def turnLE (a b : Turn) : Prop :=
  a.priority < b.priority ∨ (a.priority = b.priority ∧ a.created_at ≤ b.created_at)

instance : DecidableRel turnLE := fun a b => by
  unfold turnLE
  infer_instance

/-- Reference drain of a queue-entry list: `k` rounds of `heappop`,
collecting the popped entries (`TurnManager.nextTurns` is this, with the
payload projected out — proved below). -/
def drainE : Nat → List QEntry → List QEntry
  | 0, _ => []
  | Nat.succ k, l =>
    match heappop l with
    | none => []
    | some (e, rest) => e :: drainE k rest

/-- The specification's priority-ordering example: four turns with
priorities [3, 1, 2, 1] submitted in that order (pairwise distinct
creation timestamps 0, 1, 2, 3). -/
def exTurnsC6 : List Turn :=
  [⟨3, 0, "C001"⟩, ⟨1, 1, "VIP001"⟩, ⟨2, 2, "AZ001"⟩, ⟨1, 3, "VIP002"⟩]

/-- One requested operation of a Turn as `_prepare_operations` consumes
it: a dict with a `type` entry and a set of further keys (the values
bound into the worker call do not influence which operations are
prepared, so only key presence is carried).  (`_prepare_operations`
subscripts each operation as a dict; the current `Turn.__init__` wraps
operations into `Operation` objects without `__getitem__`, a
calling-convention mismatch outside the claims about this function.) -/
structure OpDict where
  type : String
  keys : List String
deriving DecidableEq, Repr

/-- src/server/process_dispatcher.py lines 118-125, the
`required_fields` table of `_validate_operation`. -/
def required_fields : List (String × List String) :=
  [("withdrawal", ["account_number", "amount", "nip"]),
   ("deposit", ["account_number", "amount"]),
   ("transfer", ["source_account", "target_account", "amount"]),
   ("transfer_between_own_accounts",
     ["customer_id", "source_account", "target_account", "amount"]),
   ("create_account", ["customer_id"])]

/-- src/server/process_dispatcher.py lines 116-129,
`ProcessDispatcher._validate_operation`: False for an operation type
outside the table, else all required fields must be present keys. -/
def validate_operation (op : OpDict) : Bool :=
  match required_fields.lookup op.type with
  | none => false
  | some fields => fields.all (fun f => op.keys.contains f)

/-- The worker object a turn is bound to, abstracted to the set of
method names it exposes (`hasattr(handler, name)`). -/
structure Handler where
  methods : List String
deriving DecidableEq, Repr

/-- The `elif op_type == ... and hasattr(handler, ...)` chain of
`_prepare_operations` (src/server/process_dispatcher.py lines 143-236),
as the association of operation-type string to worker method name, in
source order.  Each operation type appears exactly once, so the chain
fires the unique matching row iff the handler has the method. -/
def operation_bindings : List (String × String) :=
  [("withdrawal", "process_withdrawal"),
   ("deposit", "process_deposit"),
   ("transfer", "process_transfer"),
   ("transfer_between_own_accounts", "process_transfer_between_own_accounts"),
   ("create_account", "create_account"),
   ("close_account", "close_account"),
   ("get_account_balance", "get_account_balance"),
   ("get_account_transactions", "get_account_transactions"),
   ("add_customer", "add_customer"),
   ("delete_customer", "delete_customer"),
   ("get_customer_accounts", "get_customer_accounts"),
   ("get_customer_by_email", "get_customer_by_email"),
   ("issue_debit_card", "issue_debit_card"),
   ("issue_credit_card", "issue_credit_card"),
   ("block_card", "block_card"),
   ("deactivate_card", "deactivate_card"),
   ("pay_credit_card", "pay_credit_card"),
   ("get_credit_card_info", "get_credit_card_info"),
   ("get_debit_cards", "get_debit_cards"),
   ("get_credit_cards", "get_credit_cards"),
   ("get_card_balance", "get_card_balance"),
   ("generate_account_statement", "generate_account_statement"),
   ("apply_monthly_interest", "apply_monthly_interest"),
   ("link_account_to_customer", "link_account_to_customer")]

/-- An operation bound to a worker method, ready for execution (the
Python closure `lambda op=op: handler.method(...)`, represented by the
method name and the operation it was built from). -/
structure BoundOp where
  method : String
  op : OpDict
deriving DecidableEq, Repr

/-- The body of the `for op in turn.operations` loop of
`_prepare_operations` for one operation: skip it when
`_validate_operation` fails, then bind it through the elif chain when
the handler has the matching method, else fall through without
appending. -/
def bindOperation (h : Handler) (op : OpDict) : Option BoundOp :=
  if !(validate_operation op) then none
  else
    match operation_bindings.lookup op.type with
    | none => none
    | some m => if h.methods.contains m then some ⟨m, op⟩ else none

/-- The full `for` loop of `_prepare_operations`: the bound operations
appended in order. -/
def prepareLoop (h : Handler) : List OpDict → List BoundOp
  | [] => []
  | op :: rest =>
    match bindOperation h op with
    | none => prepareLoop h rest
    | some b => b :: prepareLoop h rest

/-- src/server/process_dispatcher.py lines 131-238,
`ProcessDispatcher._prepare_operations`: run the loop over the turn's
operations, then `return operations[:3]`. -/
def prepare_operations (h : Handler) (ops : List OpDict) : List BoundOp :=
  (prepareLoop h ops).take 3

/-- One call against a CreditCard, for stating the credit-limit
invariant over arbitrary call sequences: a purchase (with the wall-clock
value its validity check reads), a payment, or a monthly interest
application.  A call that raises leaves the card as it was (both raising
paths of src/core/credit_card.py fire before any field is assigned). -/
inductive CreditOp where
  | purchase (now : Nat) (amount : ℚ)
  | payment (amount : ℚ)
  | interest
deriving DecidableEq, Repr

/-- The state of a CreditCard after one call, successful or raising. -/
def CreditCard.applyOp (c : CreditCard) : CreditOp → CreditCard
  | CreditOp.purchase now amount =>
    match c.make_purchase now amount with
    | Except.ok c' => c'
    | Except.error _ => c
  | CreditOp.payment amount =>
    match c.make_payment amount with
    | Except.ok c' => c'
    | Except.error _ => c
  | CreditOp.interest => c.apply_interest

/-- The credit invariant of the specification:
`available_credit + outstanding_balance == credit_limit`. -/
def creditInvariant (c : CreditCard) : Prop :=
  c.available_credit + c.outstanding_balance = c.credit_limit

instance : DecidablePred creditInvariant := fun c => by
  unfold creditInvariant
  infer_instance

/-- A trivial stand-in for `sha256(...).hexdigest()` used to instantiate
concrete ledger states: any function `String → String` is admissible for
the abstract hash parameter. -/
def idHash : String → String := fun s => s

/-- Example account "A" (balance 100, NIP "1234" stored hashed). -/
def exAcctA : Account :=
  ⟨"A", "cust1", 100, some (idHash "1234"), 0, false, []⟩

/-- Example account "B" (balance 50, no NIP). -/
def exAcctB : Account :=
  ⟨"B", "cust2", 50, none, 0, false, []⟩

/-- Example two-account ledger for the transfer claim. -/
def exBankAB : Bank :=
  ⟨[("A", exAcctA), ("B", exAcctB)], [], []⟩

/-- Example account "A" with balance 1000 and NIP "1234", as in the
specification's deposit/withdraw scenario. -/
def exAcct1000 : Account :=
  ⟨"A", "cust1", 1000, some (idHash "1234"), 0, false, []⟩

/-- Example one-account ledger holding `exAcct1000`. -/
def exBank1000 : Bank :=
  ⟨[("A", exAcct1000)], [], []⟩

/-- An activated NORMAL-tier credit-card ledger value carrying an
outstanding balance of 100 (available 9900 of the 10000 limit), written
as an explicit state: the claims about the card *methods* and the
registry operations quantify over arbitrary CreditCard values, since the
source's constructor itself never returns (see `CreditCard.construct`). -/
def exNormalCard : CreditCard :=
  { card_type := CardType.NORMAL
    customer_id := "cust1"
    active := true
    expiration_date := 1000
    benefits := creditBenefits CardType.NORMAL
    credit_limit := 10000
    outstanding_balance := 100
    available_credit := 9900 }

/-- A GOLD-tier credit-card ledger value in its pristine shape (no
outstanding balance), written as an explicit state for the same
reason. -/
def exGoldCard : CreditCard :=
  { card_type := CardType.GOLD
    customer_id := "g"
    active := false
    expiration_date := 0
    benefits := creditBenefits CardType.GOLD
    credit_limit := 20000
    outstanding_balance := 0
    available_credit := 20000 }

/-- A ledger holding one credit card with outstanding balance 100. -/
def exBankCard : Bank :=
  ⟨[], [("4111", Card.credit exNormalCard)], []⟩

/-- An example debit card. -/
def exDebitCard : DebitCard :=
  ⟨CardType.NORMAL, "A", true⟩

/-- Example funding account "A" with balance 500. -/
def exAcct500 : Account :=
  ⟨"A", "cust1", 500, some (idHash "1234"), 0, false, []⟩

/-- A ledger with funding account "A" (balance 500) and the credit card
"4111" carrying an outstanding balance of 100. -/
def exBankPay : Bank :=
  ⟨[("A", exAcct500)], [("4111", Card.credit exNormalCard)], []⟩

/-- The PAYMENT transaction `Bank.pay_credit_card` records when the
funding account `src` is debited for card `card_number` (the same shape
is appended to the global history on success). -/
def cardPaymentTxn (src : String) (card_number : String) (amount : ℚ) : Transaction :=
  { account_id := src
    amount := amount
    type := TransactionType.PAYMENT
    card_number := some card_number
    description := none
    source_reference := none
    is_cash := false }

/- ------------------------------------------------------------------ -/
/- Helper lemmas -/
/- ------------------------------------------------------------------ -/

theorem dictGet_cons {α : Type} (p : String × α) (ps : List (String × α)) (k : String) :
    dictGet (p :: ps) k = if p.1 == k then some p.2 else dictGet ps k := by
  by_cases h : p.1 = k
  · simp [dictGet, List.find?, h]
  · have hb : (p.1 == k) = false := by simp [h]
    simp [dictGet, List.find?, hb]

theorem dictSet_cons {α : Type} (p : String × α) (ps : List (String × α)) (k : String) (v : α) :
    dictSet (p :: ps) k v = (if p.1 == k then (k, v) else p) :: dictSet ps k v := rfl

theorem dictGet_dictSet_self {α : Type} {l : List (String × α)} {k : String} {a v : α}
    (h : dictGet l k = some a) : dictGet (dictSet l k v) k = some v := by
  induction l with
  | nil => simp [dictGet] at h
  | cons p ps ih =>
    rw [dictSet_cons]
    by_cases hk : p.1 = k
    · simp [dictGet_cons, hk]
    · rw [dictGet_cons] at h
      rw [if_neg (by simp [hk])]
      rw [dictGet_cons]
      simp only [show (p.1 == k) = false by simp [hk]] at h
      simp only [show (p.1 == k) = false by simp [hk]]
      simp only [Bool.false_eq_true, if_false] at h ⊢
      exact ih h

theorem dictGet_dictSet_ne {α : Type} {l : List (String × α)} {k k' : String} {v : α}
    (h : k ≠ k') : dictGet (dictSet l k v) k' = dictGet l k' := by
  induction l with
  | nil => simp [dictGet, dictSet]
  | cons p ps ih =>
    rw [dictSet_cons]
    by_cases hk : p.1 = k
    · rw [if_pos (show (p.1 == k) = true by simp [hk])]
      rw [dictGet_cons, dictGet_cons]
      simp only [hk]
      simp only [show (k == k') = false by simp [h], Bool.false_eq_true, if_false]
      exact ih
    · rw [if_neg (by simp [hk])]
      rw [dictGet_cons, dictGet_cons]
      by_cases hk2 : p.1 = k'
      · simp [hk2]
      · simp only [show (p.1 == k') = false by simp [hk2]]
        exact ih

/-- A successful purchase preserves the credit invariant. -/
theorem make_purchase_creditInvariant {c c' : CreditCard} {now : Nat} {amount : ℚ}
    (hc : creditInvariant c) (h : c.make_purchase now amount = Except.ok c') :
    creditInvariant c' := by
  unfold CreditCard.make_purchase at h
  split at h
  · exact absurd h (by simp)
  · split at h
    · exact absurd h (by simp)
    · injection h with h
      subst h
      unfold creditInvariant at hc ⊢
      simp only
      linarith

/-- A successful payment preserves the credit invariant. -/
theorem make_payment_creditInvariant {c c' : CreditCard} {amount : ℚ}
    (hc : creditInvariant c) (h : c.make_payment amount = Except.ok c') :
    creditInvariant c' := by
  unfold CreditCard.make_payment at h
  split at h
  · exact absurd h (by simp)
  · injection h with h
    subst h
    unfold creditInvariant at hc ⊢
    simp only
    linarith

/-- Applying interest preserves the credit invariant. -/
theorem apply_interest_creditInvariant {c : CreditCard} (hc : creditInvariant c) :
    creditInvariant c.apply_interest := by
  unfold creditInvariant at hc ⊢
  unfold CreditCard.apply_interest CreditCard.calculate_interest
  simp only
  linarith

/-- Each single credit-card call, successful or raising, preserves the
credit invariant. -/
theorem applyOp_creditInvariant {c : CreditCard} (hc : creditInvariant c)
    (op : CreditOp) : creditInvariant (c.applyOp op) := by
  cases op with
  | purchase now amount =>
    cases h : c.make_purchase now amount with
    | ok c' => simpa [CreditCard.applyOp, h] using make_purchase_creditInvariant hc h
    | error e => simpa [CreditCard.applyOp, h] using hc
  | payment amount =>
    cases h : c.make_payment amount with
    | ok c' => simpa [CreditCard.applyOp, h] using make_payment_creditInvariant hc h
    | error e => simpa [CreditCard.applyOp, h] using hc
  | interest => simpa [CreditCard.applyOp] using apply_interest_creditInvariant hc

/- ------------------------------------------------------------------ -/
/- Claim theorems -/
/- ------------------------------------------------------------------ -/

/-- C1: balance conservation fails on the code.  On the ledger with
accounts A (balance 100) and B (balance 50), `transfer(A, B, 30)`
succeeds and each side records exactly one transaction, but A ends at 70
while B ends at 110: `Bank.transfer` adds the amount to the target
directly and then `Account.add_transaction` adds the DEPOSIT-typed
target transaction to the balance a second time, so the sum of balances
grows by the transferred amount (180 ≠ 150). -/
theorem C1_transfer_balance_conservation_fails :
    (Bank.transfer idHash exBankAB "A" "B" 30 none).1 = true ∧
    (dictGet (Bank.transfer idHash exBankAB "A" "B" 30 none).2.accounts "A").map
      Account.balance = some 70 ∧
    (dictGet (Bank.transfer idHash exBankAB "A" "B" 30 none).2.accounts "B").map
      Account.balance = some 110 ∧
    (dictGet (Bank.transfer idHash exBankAB "A" "B" 30 none).2.accounts "A").map
      (fun a => a.transaction_history.length) = some 1 ∧
    (dictGet (Bank.transfer idHash exBankAB "A" "B" 30 none).2.accounts "B").map
      (fun a => a.transaction_history.length) = some 1 ∧
    (70 : ℚ) + 110 ≠ 100 + 50 := by
  refine ⟨?_, ?_, ?_, ?_, ?_, ?_⟩ <;>
    norm_num [Bank.transfer, exBankAB, exAcctA, exAcctB, idHash, dictGet, dictSet,
      strOptTruthy, Account.add_transaction, List.find?,
      (show ("A" : String) ≠ "B" by decide), (show ("B" : String) ≠ "A" by decide),
      (show (("A" : String) == "B") = false by decide),
      (show (("B" : String) == "A") = false by decide)]

/-- C2: a successful plain deposit does not increase the balance by the
amount.  On the account with balance 1000 of the specification's
scenario, `deposit(500)` succeeds and records one DEPOSIT transaction,
but the balance ends at 2000, not 1500: `Bank.deposit` adds the amount
itself and `Account.add_transaction` adds it once more for the
DEPOSIT-typed record. -/
theorem C2_deposit_double_credits :
    (Bank.deposit exBank1000 "A" 500 none).1 = true ∧
    (dictGet (Bank.deposit exBank1000 "A" 500 none).2.accounts "A").map
      Account.balance = some 2000 ∧
    (dictGet (Bank.deposit exBank1000 "A" 500 none).2.accounts "A").map
      (fun a => (a.transaction_history.filter
        (fun t => t.type == TransactionType.DEPOSIT)).length) = some 1 ∧
    (2000 : ℚ) ≠ 1500 := by
  refine ⟨?_, ?_, ?_, ?_⟩ <;>
    norm_num [Bank.deposit, exBank1000, exAcct1000, idHash, dictGet, dictSet,
      strOptTruthy, Account.add_transaction, List.find?, List.filter]

/-- C3: the lockout rule is not implemented.  A withdraw with a wrong
NIP returns False and leaves the bank state literally unchanged —
`Account.validate_nip` and `Bank.withdraw` never increment
`nip_attempts` and never set `is_locked` — so after three consecutive
wrong-NIP withdrawals the account is still unlocked with zero recorded
attempts, and a fourth withdrawal with the correct NIP succeeds instead
of failing on a locked account. -/
theorem C3_lockout_never_engages :
    (Bank.withdraw idHash
      (Bank.withdraw idHash
        (Bank.withdraw idHash exBank1000 "A" 100 "0000").2 "A" 100 "0000").2
      "A" 100 "0000").2 = exBank1000 ∧
    (dictGet exBank1000.accounts "A").map Account.is_locked = some false ∧
    (dictGet exBank1000.accounts "A").map Account.nip_attempts = some 0 ∧
    (Bank.withdraw idHash exBank1000 "A" 100 "1234").1 = true := by
  decide

/-- A successful purchase changes available credit and outstanding
balance by opposite amounts, so it preserves
`available_credit + outstanding_balance - credit_limit` exactly. -/
theorem make_purchase_defect {c c' : CreditCard} {now : Nat} {amount : ℚ}
    (h : c.make_purchase now amount = Except.ok c') :
    c'.available_credit + c'.outstanding_balance - c'.credit_limit
      = c.available_credit + c.outstanding_balance - c.credit_limit := by
  unfold CreditCard.make_purchase at h
  split at h
  · exact absurd h (by simp)
  · split at h
    · exact absurd h (by simp)
    · injection h with h
      subst h
      simp only
      ring

/-- A successful payment preserves
`available_credit + outstanding_balance - credit_limit` exactly. -/
theorem make_payment_defect {c c' : CreditCard} {amount : ℚ}
    (h : c.make_payment amount = Except.ok c') :
    c'.available_credit + c'.outstanding_balance - c'.credit_limit
      = c.available_credit + c.outstanding_balance - c.credit_limit := by
  unfold CreditCard.make_payment at h
  split at h
  · exact absurd h (by simp)
  · injection h with h
    subst h
    simp only
    ring

/-- Applying interest preserves
`available_credit + outstanding_balance - credit_limit` exactly. -/
theorem apply_interest_defect (c : CreditCard) :
    c.apply_interest.available_credit + c.apply_interest.outstanding_balance
        - c.apply_interest.credit_limit
      = c.available_credit + c.outstanding_balance - c.credit_limit := by
  unfold CreditCard.apply_interest CreditCard.calculate_interest
  simp only
  ring

/-- Each single credit-card call, successful or raising, preserves
`available_credit + outstanding_balance - credit_limit` exactly — in
particular it preserves the credit invariant wherever that holds. -/
theorem applyOp_preserves_defect (c : CreditCard) (op : CreditOp) :
    (c.applyOp op).available_credit + (c.applyOp op).outstanding_balance
        - (c.applyOp op).credit_limit
      = c.available_credit + c.outstanding_balance - c.credit_limit := by
  cases op with
  | purchase now amount =>
    cases h : c.make_purchase now amount with
    | ok c' => simpa [CreditCard.applyOp, h] using make_purchase_defect h
    | error e => simp [CreditCard.applyOp, h]
  | payment amount =>
    cases h : c.make_payment amount with
    | ok c' => simpa [CreditCard.applyOp, h] using make_payment_defect h
    | error e => simp [CreditCard.applyOp, h]
  | interest => simpa [CreditCard.applyOp] using apply_interest_defect c

/-- C4: the claim fails at creation.  `CreditCard.__init__` starts with
`super().__init__(card_type)`, but `Card.__init__` requires a second
positional argument `category`, so every CreditCard construction raises
TypeError — the program never creates a card, and there is no creation
state at which `available_credit + outstanding_balance == credit_limit`
could hold.  The half of the claim the method code gets right is proved
alongside: every finite sequence of `make_purchase` / `make_payment` /
`apply_interest` calls, successful or raising, preserves
`available_credit + outstanding_balance - credit_limit` exactly, hence
preserves the credit invariant from any state satisfying it. -/
theorem C4_credit_card_constructor_raises (ct : CardType) (cid : String) :
    CreditCard.construct ct cid =
      Except.error
        "TypeError: Card.__init__ missing 1 required positional argument: category" ∧
    ∀ (c : CreditCard) (ops : List CreditOp),
      (ops.foldl CreditCard.applyOp c).available_credit
          + (ops.foldl CreditCard.applyOp c).outstanding_balance
          - (ops.foldl CreditCard.applyOp c).credit_limit
        = c.available_credit + c.outstanding_balance - c.credit_limit := by
  refine ⟨rfl, ?_⟩
  intro c ops
  induction ops generalizing c with
  | nil => rfl
  | cons op rest ih =>
    rw [List.foldl_cons, ih (c.applyOp op)]
    exact applyOp_preserves_defect c op

/-- C5: the priority rule fails on the code for every turn that carries
a card.  `Turn._determine_priority` returns 3 for no card, but for any
card it first builds a dict literal whose third key is
`CardType.STANDARD` — a member that does not exist (the tier is named
NORMAL) — so the method raises AttributeError instead of returning 2 for
a debit card, 2 for a NORMAL credit card, or 1 for GOLD/PLATINUM. -/
theorem C5_priority_raises_attribute_error :
    Turn.determine_priority none = Except.ok 3 ∧
    Turn.determine_priority (some (Card.debit exDebitCard)) =
      Except.error "AttributeError: type object CardType has no attribute STANDARD" ∧
    Turn.determine_priority (some (Card.credit exNormalCard)) =
      Except.error "AttributeError: type object CardType has no attribute STANDARD" ∧
    Turn.determine_priority (some (Card.credit exGoldCard)) =
      Except.error "AttributeError: type object CardType has no attribute STANDARD" :=
  ⟨rfl, rfl, rfl, rfl⟩

end BankSpec

namespace BankSpec

/-- A registry entry is affected by the monthly interest run iff it
holds a CreditCard with positive outstanding balance. -/
def interestAffected (p : String × Card) : Bool :=
  match p.2 with
  | Card.credit c => decide (0 < c.outstanding_balance)
  | Card.debit _ => false

/-- The state of one registry entry after the monthly interest run. -/
def interestEntryUpd (p : String × Card) : String × Card :=
  match p.2 with
  | Card.credit c =>
    if 0 < c.outstanding_balance then (p.1, Card.credit c.apply_interest) else p
  | Card.debit _ => p

/-- The synthetic PAYMENT transaction recorded for an affected registry
entry (only consulted on entries holding a CreditCard). -/
def interestTxnOf (p : String × Card) : Transaction :=
  match p.2 with
  | Card.credit c =>
    { account_id := c.customer_id
      amount := c.calculate_interest
      type := TransactionType.PAYMENT
      card_number := none
      description := some "Interés mensual"
      source_reference := none
      is_cash := false }
  | Card.debit _ =>
    { account_id := ""
      amount := 0
      type := TransactionType.PAYMENT
      card_number := none
      description := none
      source_reference := none
      is_cash := false }

/-- The interest loop decomposes into a pointwise registry update, a
count and total over the affected entries, and one transaction per
affected entry. -/
theorem applyInterestLoop_spec (l : List (String × Card)) :
    applyInterestLoop l =
      (l.map interestEntryUpd,
       (l.filter interestAffected).length,
       ((l.filter interestAffected).map (fun p => (interestTxnOf p).amount)).sum,
       (l.filter interestAffected).map interestTxnOf) := by
  induction l with
  | nil => rfl
  | cons p ps ih =>
    obtain ⟨k, card⟩ := p
    cases card with
    | debit d =>
      simp [applyInterestLoop, ih, interestAffected, interestEntryUpd, List.filter]
    | credit c =>
      by_cases h : 0 < c.outstanding_balance
      · simp [applyInterestLoop, ih, interestAffected, interestEntryUpd, interestTxnOf,
          List.filter, h]
        ring
      · simp [applyInterestLoop, ih, interestAffected, interestEntryUpd, List.filter, h]

/-- C7 counterexample: `apply_monthly_interest` does not return the pair
(count, total interest).  On a registry holding one credit card with
outstanding balance 100 at tier rate 0.05 — where the claimed return
value would be (1, 5) — the Python function falls off its end and
returns None. -/
theorem C7_interest_returns_none :
    (Bank.apply_monthly_interest exBankCard).1 = none ∧
    (none : Option (Nat × ℚ)) ≠ some (1, 5) :=
  ⟨rfl, by simp⟩

/-- C7 (amended): `apply_monthly_interest` applies interest exactly to
the credit cards with positive outstanding balance (each moves
`outstanding_balance × tier_rate` from available credit to the
outstanding balance), appends one synthetic PAYMENT transaction per
affected card to the global history, and computes the affected-card
count and total interest — but only reports them to the event console
and returns None instead of the pair. -/
theorem C7_interest_application (b : Bank) :
    Bank.apply_monthly_interest b =
      (none,
        { b with
          card_registry := b.card_registry.map interestEntryUpd
          transaction_history := b.transaction_history ++
            (b.card_registry.filter interestAffected).map interestTxnOf }) ∧
    (applyInterestLoop b.card_registry).2.1 =
      (b.card_registry.filter interestAffected).length ∧
    (applyInterestLoop b.card_registry).2.2.1 =
      ((b.card_registry.filter interestAffected).map
        (fun p => (interestTxnOf p).amount)).sum := by
  refine ⟨?_, ?_, ?_⟩ <;>
    simp [Bank.apply_monthly_interest, applyInterestLoop_spec b.card_registry]

/-- The binding loop of `_prepare_operations` keeps exactly the
operations that validate and match a handler method, in order. -/
theorem prepareLoop_eq_filterMap (h : Handler) (ops : List OpDict) :
    prepareLoop h ops = ops.filterMap (bindOperation h) := by
  induction ops with
  | nil => rfl
  | cons op rest ih =>
    cases hb : bindOperation h op <;>
      simp [prepareLoop, List.filterMap_cons, hb, ih]

/-- C8: at most 3 of a turn's operations are bound for execution — the
prepared list is the three-element prefix of the validated-and-bindable
operations, so its length never exceeds 3 and every valid operation
beyond the first three is dropped. -/
theorem C8_at_most_three_operations_bound (h : Handler) (ops : List OpDict) :
    (prepare_operations h ops).length ≤ 3 ∧
    prepare_operations h ops = (ops.filterMap (bindOperation h)).take 3 := by
  constructor
  · rw [prepare_operations, List.length_take]
    exact min_le_left _ _
  · rw [prepare_operations, prepareLoop_eq_filterMap]

/-- C9 counterexample: a non-None source reference does not always make
the deposit fail — Python truthiness intervenes.  With the empty string
as source reference (`some ""`, which is not None but is falsy), the
code takes the ordinary DEPOSIT path and returns True. -/
theorem C9_empty_reference_deposit_succeeds :
    (Bank.deposit exBank1000 "A" 500 (some "")).1 = true := by
  norm_num [Bank.deposit, exBank1000, exAcct1000, dictGet, dictSet, strOptTruthy,
    Account.add_transaction, List.find?]

/-- C9 (amended): for every existing account, positive amount and
non-empty (truthy) source reference, `Bank.deposit` returns False — the
code evaluates the nonexistent `TransactionType.TRANSFER_RECEIVED`
member, the AttributeError is swallowed by the outer except — yet the
account's balance has already been increased by the amount, and no
transaction is recorded in the account history or the global history. -/
theorem C9_truthy_reference_deposit_fails (b : Bank) (account_number : String)
    (amount : ℚ) (r : String) (account : Account)
    (ha : dictGet b.accounts account_number = some account)
    (hpos : 0 < amount) (hr : r ≠ "") :
    Bank.deposit b account_number amount (some r) =
      (false,
        { b with
          accounts := dictSet b.accounts account_number
              { account with balance := account.balance + amount } }) := by
  rw [Bank.deposit, if_neg (not_le.mpr hpos)]
  rw [ha]
  simp [strOptTruthy, hr]

/-- A concrete instance of C9 (amended): a deposit of 500 with source
reference "X" on the balance-1000 account reports failure while leaving
the balance at 1500 and both histories untouched. -/
theorem C9_truthy_reference_deposit_fails_witness :
    Bank.deposit exBank1000 "A" 500 (some "X") =
      (false,
        { exBank1000 with
          accounts := dictSet exBank1000.accounts "A"
              { exAcct1000 with balance := exAcct1000.balance + 500 } }) :=
  C9_truthy_reference_deposit_fails exBank1000 "A" 500 "X" exAcct1000 rfl
    (by norm_num) (by decide)

/-- C10: a non-cash credit-card payment larger than the card's debt
succeeds, debits the funding account by the full amount, but credits the
card only with its previous outstanding balance (`make_payment` caps the
payment at `min(amount, outstanding_balance)`), so the excess paid is
not credited anywhere. -/
theorem C10_overpayment_not_credited (b : Bank) (card_number : String)
    (amount : ℚ) (src : String) (card : CreditCard) (account : Account)
    (hcard : dictGet b.card_registry card_number = some (Card.credit card))
    (hacct : dictGet b.accounts src = some account)
    (hout : 0 ≤ card.outstanding_balance)
    (hover : card.outstanding_balance < amount)
    (hbal : amount ≤ account.balance) :
    (Bank.pay_credit_card b card_number amount (some src) false).1 = true ∧
    (dictGet (Bank.pay_credit_card b card_number amount (some src) false).2.accounts
      src).map Account.balance = some (account.balance - amount) ∧
    dictGet (Bank.pay_credit_card b card_number amount (some src) false).2.card_registry
      card_number =
      some (Card.credit { card with
        outstanding_balance := 0
        available_credit := card.available_credit + card.outstanding_balance }) := by
  have hnot : ¬ (amount ≤ 0) := not_le.mpr (lt_of_le_of_lt hout hover)
  have hmp : card.make_payment amount =
      Except.ok { card with
        outstanding_balance := 0
        available_credit := card.available_credit + card.outstanding_balance } := by
    rw [CreditCard.make_payment, if_neg hnot]
    simp [min_eq_right (le_of_lt hover)]
  have hred : Bank.pay_credit_card b card_number amount (some src) false =
      (true,
        { b with
          accounts := dictSet b.accounts src
            (Account.add_transaction { account with balance := account.balance - amount }
              (cardPaymentTxn src card_number amount))
          card_registry := dictSet b.card_registry card_number
            (Card.credit { card with
              outstanding_balance := 0
              available_credit := card.available_credit + card.outstanding_balance })
          transaction_history := b.transaction_history ++
            [cardPaymentTxn src card_number amount] }) := by
    rw [Bank.pay_credit_card, hcard]
    simp only [Bool.not_false, if_pos, Option.bind, hacct, Option.map]
    rw [if_neg (not_lt.mpr hbal)]
    rw [hmp]
    rfl
  refine ⟨by rw [hred], ?_, ?_⟩
  · rw [hred]
    have := @dictGet_dictSet_self Account b.accounts src account
      (Account.add_transaction { account with balance := account.balance - amount }
        (cardPaymentTxn src card_number amount)) hacct
    simp only [this]
    simp [Account.add_transaction, cardPaymentTxn]
  · rw [hred]
    exact dictGet_dictSet_self hcard

theorem heappop_none {l : List QEntry} (h : heappop l = none) : l = [] := by
  cases l with
  | nil => rfl
  | cons e rest =>
    simp only [heappop] at h
    cases hp : heappop rest with
    | none => rw [hp] at h; simp at h
    | some pr =>
      obtain ⟨m, rest'⟩ := pr
      rw [hp] at h
      dsimp only at h
      by_cases hlt : QEntry.lt m e = true
      · rw [if_pos hlt] at h; simp at h
      · rw [if_neg hlt] at h; simp at h

theorem heappop_perm {l rest : List QEntry} {e : QEntry}
    (h : heappop l = some (e, rest)) : l.Perm (e :: rest) := by
  induction l generalizing e rest with
  | nil => simp [heappop] at h
  | cons a as ih =>
    simp only [heappop] at h
    cases hp : heappop as with
    | none =>
      rw [hp] at h
      obtain rfl : as = [] := heappop_none hp
      simp only [Option.some.injEq, Prod.mk.injEq] at h
      obtain ⟨rfl, rfl⟩ := h
      exact List.Perm.refl _
    | some pr =>
      obtain ⟨m, rest'⟩ := pr
      rw [hp] at h
      dsimp only at h
      by_cases hlt : QEntry.lt m a = true
      · rw [if_pos hlt] at h
        simp only [Option.some.injEq, Prod.mk.injEq] at h
        obtain ⟨rfl, rfl⟩ := h
        exact ((ih hp).cons a).trans (List.Perm.swap _ _ _)
      · rw [if_neg hlt] at h
        simp only [Option.some.injEq, Prod.mk.injEq] at h
        obtain ⟨rfl, rfl⟩ := h
        exact List.Perm.refl _

theorem qentry_lt_asymm {a b : QEntry} (h : QEntry.lt a b = true) :
    QEntry.lt b a = false := by
  unfold QEntry.lt Turn.lt at h ⊢
  split_ifs at h ⊢ <;> simp_all <;> omega

theorem qentry_nlt_trans {x m e : QEntry} (h1 : QEntry.lt x m = false)
    (h2 : QEntry.lt m e = false) : QEntry.lt x e = false := by
  unfold QEntry.lt Turn.lt at h1 h2 ⊢
  split_ifs at h1 h2 ⊢ <;> simp_all <;> omega

theorem heappop_min {l rest : List QEntry} {e : QEntry}
    (h : heappop l = some (e, rest)) : ∀ x ∈ rest, QEntry.lt x e = false := by
  induction l generalizing e rest with
  | nil => simp [heappop] at h
  | cons a as ih =>
    simp only [heappop] at h
    cases hp : heappop as with
    | none =>
      rw [hp] at h
      simp only [Option.some.injEq, Prod.mk.injEq] at h
      obtain ⟨rfl, rfl⟩ := h
      intro x hx
      simp at hx
    | some pr =>
      obtain ⟨m, rest'⟩ := pr
      rw [hp] at h
      dsimp only at h
      by_cases hlt : QEntry.lt m a = true
      · rw [if_pos hlt] at h
        simp only [Option.some.injEq, Prod.mk.injEq] at h
        obtain ⟨rfl, rfl⟩ := h
        intro x hx
        rcases List.mem_cons.mp hx with rfl | hx'
        · exact qentry_lt_asymm hlt
        · exact ih hp x hx'
      · rw [if_neg hlt] at h
        simp only [Option.some.injEq, Prod.mk.injEq] at h
        obtain ⟨rfl, rfl⟩ := h
        intro x hx
        have hma : QEntry.lt m a = false := Bool.eq_false_iff.mpr hlt
        rcases List.mem_cons.mp ((heappop_perm hp).mem_iff.mp hx) with rfl | hx'
        · exact hma
        · exact qentry_nlt_trans (ih hp x hx') hma

/-- A concrete instance of C10: paying 150 against a debt of 100 from an
account holding 500 succeeds, leaves the account at 350, and restores
the card only to outstanding 0 / available 10000 — the extra 50 is
gone. -/
theorem C10_overpayment_not_credited_witness :
    (Bank.pay_credit_card exBankPay "4111" 150 (some "A") false).1 = true ∧
    (dictGet (Bank.pay_credit_card exBankPay "4111" 150 (some "A") false).2.accounts
      "A").map Account.balance = some (exAcct500.balance - 150) ∧
    dictGet (Bank.pay_credit_card exBankPay "4111" 150 (some "A") false).2.card_registry
      "4111" =
      some (Card.credit { exNormalCard with
        outstanding_balance := 0
        available_credit := exNormalCard.available_credit +
          exNormalCard.outstanding_balance }) :=
  C10_overpayment_not_credited exBankPay "4111" 150 "A" exNormalCard exAcct500 rfl rfl
    (by norm_num [exNormalCard])
    (by norm_num [exNormalCard])
    (by norm_num [exAcct500])

/-- Draining a queue of at most `k` entries yields a permutation of the
queue that is sorted: each popped entry is a heap minimum of what
remained. -/
theorem drainE_spec : ∀ (k : Nat) (l : List QEntry), l.length ≤ k →
    (drainE k l).Perm l ∧
    (drainE k l).Pairwise (fun a b => QEntry.lt b a = false) := by
  intro k
  induction k with
  | zero =>
    intro l hl
    obtain rfl : l = [] := List.eq_nil_of_length_eq_zero (Nat.le_zero.mp hl)
    exact ⟨List.Perm.refl _, List.Pairwise.nil⟩
  | succ k ih =>
    intro l hl
    cases hp : heappop l with
    | none =>
      obtain rfl : l = [] := heappop_none hp
      simp [drainE, hp]
    | some pr =>
      obtain ⟨e, rest⟩ := pr
      have hperm := heappop_perm hp
      have hlen : rest.length ≤ k := by
        have := hperm.length_eq
        simp at this
        omega
      obtain ⟨ihp, ihs⟩ := ih rest hlen
      have hd : drainE (Nat.succ k) l = e :: drainE k rest := by
        simp [drainE, hp]
      rw [hd]
      refine ⟨(ihp.cons e).trans hperm.symm, List.Pairwise.cons ?_ ihs⟩
      intro x hx
      exact heappop_min hp x (ihp.subset hx)

/-- `TurnManager.nextTurns` is the payload projection of the reference
drain of the manager's queue (the `active_turns` bookkeeping does not
influence which turns come back). -/
theorem nextTurns_eq_drainE : ∀ (k : Nat) (m : TurnManager),
    m.nextTurns k = (drainE k m.priority_queue).map QEntry.turn := by
  intro k
  induction k with
  | zero => intro m; rfl
  | succ k ih =>
    intro m
    simp only [TurnManager.nextTurns, TurnManager.get_next_turn]
    cases hp : heappop m.priority_queue with
    | none => simp [drainE, hp]
    | some pr =>
      obtain ⟨e, rest⟩ := pr
      simp [drainE, hp, ih]

/-- Submitting turns in order appends their queue tuples in order. -/
theorem addAll_queue : ∀ (ts : List Turn) (m : TurnManager),
    (ts.foldl TurnManager.add_turn m).priority_queue =
      m.priority_queue ++ ts.map mkEntry := by
  intro ts
  induction ts with
  | nil => intro m; simp
  | cons t rest ih =>
    intro m
    rw [List.foldl_cons, ih]
    simp [TurnManager.add_turn, heappush]

set_option linter.unnecessarySeqFocus false in
/-- On the tuples `add_turn` pushes, failing the Python `<` comparison
is exactly the specification's priority-then-FIFO order of the payload
turns. -/
theorem lt_false_turnLE {s t : Turn}
    (h : QEntry.lt (mkEntry t) (mkEntry s) = false) : turnLE s t := by
  unfold QEntry.lt Turn.lt mkEntry at h
  unfold turnLE
  simp only at h
  split_ifs at h <;> simp_all <;> omega

/-- C6: turns submitted to the TurnManager with pairwise distinct
creation timestamps come back from successive `get_next_turn` calls as a
permutation of what was submitted, in ascending priority order with FIFO
(creation-timestamp) order inside each priority tier. -/
theorem C6_dequeue_priority_then_fifo (ts : List Turn)
    (_hdist : ts.Pairwise (fun a b => a.created_at ≠ b.created_at)) :
    ((addAll ts).nextTurns ts.length).Perm ts ∧
    ((addAll ts).nextTurns ts.length).Pairwise turnLE := by
  have hq : (addAll ts).priority_queue = ts.map mkEntry := by
    simpa using addAll_queue ts TurnManager.empty
  have hlen : (ts.map mkEntry).length ≤ ts.length := by simp
  obtain ⟨hperm, hsorted⟩ := drainE_spec ts.length (ts.map mkEntry) hlen
  have hnt : (addAll ts).nextTurns ts.length =
      (drainE ts.length (ts.map mkEntry)).map QEntry.turn := by
    rw [nextTurns_eq_drainE, hq]
  constructor
  · rw [hnt]
    have hmapped := hperm.map QEntry.turn
    have hcomp : QEntry.turn ∘ mkEntry = id := rfl
    simpa [List.map_map, hcomp] using hmapped
  · rw [hnt]
    rw [List.pairwise_map]
    refine hsorted.imp_of_mem ?_
    intro a b ha hb hab
    obtain ⟨s, _, rfl⟩ := List.mem_map.mp (hperm.subset ha)
    obtain ⟨t, _, rfl⟩ := List.mem_map.mp (hperm.subset hb)
    simpa [mkEntry] using lt_false_turnLE hab

/-- A concrete instance of C6: the specification's example — priorities
[3, 1, 2, 1] submitted in that order dequeue as a sorted permutation,
concretely [VIP001, VIP002, AZ001, C001]: the two priority-1 turns first
in submission order, then priority 2, then priority 3. -/
theorem C6_dequeue_priority_then_fifo_witness :
    (((addAll exTurnsC6).nextTurns exTurnsC6.length).Perm exTurnsC6 ∧
      ((addAll exTurnsC6).nextTurns exTurnsC6.length).Pairwise turnLE) ∧
    ((addAll exTurnsC6).nextTurns exTurnsC6.length).map Turn.turn_id =
      ["VIP001", "VIP002", "AZ001", "C001"] :=
  ⟨C6_dequeue_priority_then_fifo exTurnsC6 (by decide), by decide⟩

end BankSpec
